import Mathlib

set_option maxRecDepth 10000

/-!
Shallow embedding of the socca-video-worker job pipeline.

The repository contains three evolutionary near-duplicates of the same
Express service, each exposing a POST /process handler:

* `src/index.js`            — required-field validation, download, single safe
                              transcode, presigned PUT upload, cleanup in a
                              `finally` block (modelled as `processIndexJs`);
* `src/unnamed/part_000`    — no validation, download, remux with full-transcode
                              fallback, presigned PUT upload, no cleanup
                              (modelled as `processPart000`);
* `src/unnamed/part_001`    — optional bearer auth, validation, download, single
                              safe transcode, Supabase Storage upload, cleanup in
                              a `finally` block (modelled as `processPart001`).

External effects (network, subprocess, streams) are supplied by an `Oracle`;
the filesystem is a set of existing paths threaded through the handler; the
externally visible attempts (HTTP requests, command invocations) are recorded
in an event trace.
-/

namespace Socca

/-- The filesystem, as the set of paths that currently exist. -/
structure FS where
  paths : List String
deriving DecidableEq

/-- Does a file exist at path `p`? -/
def FS.hasFile (fs : FS) (p : String) : Bool := fs.paths.contains p

/-- `fs.createWriteStream(p)` creates (or truncates) the file at `p` at once. -/
def FS.create (fs : FS) (p : String) : FS :=
  ⟨if fs.paths.contains p then fs.paths else p :: fs.paths⟩

/-- `fs.unlink` / `fs.unlinkSync` with errors ignored: removes `p` if present. -/
def FS.unlink (fs : FS) (p : String) : FS := ⟨fs.paths.filter (fun q => q != p)⟩

/-- Externally visible attempts made by a handler: an HTTP GET of the input,
a subprocess invocation with a full command line, an HTTP PUT/POST upload. -/
inductive Event where
  | download (url : String)
  | exec (cmd : String)
  | upload (url : String)
deriving DecidableEq

/-- The JSON body sent back by a handler.  Keys that a given `res.json
payload` does not mention are `none` (JSON omits keys whose value is
undefined). `httpStatus` is the HTTP status code set on the response. -/
structure Response where
  httpStatus : Nat
  status : String
  job_id : Option String
  match_id : Option String
  stream_url : Option String
  error : Option String
  logs : List String
deriving DecidableEq

/-- Result of one handler run: response sent, final filesystem, event trace. -/
structure JobOut where
  resp : Response
  fs : FS
  trace : List Event
deriving DecidableEq

/-- The incoming request: Authorization header and the JSON body fields the
three handlers destructure.  `none` models an absent field (undefined). -/
structure Request where
  authHeader : Option String
  input_video_url : Option String
  match_id : Option String
  upload_url : Option String
  storage_bucket : Option String
  supabase_url : Option String
  supabase_key : Option String
deriving DecidableEq

/-- Environment oracle for the external world.  `fetchStatus url` is the HTTP
status the network returns for a request to `url`; `responseText url` is the
corresponding response body text; `streamResult` is the outcome of piping the
downloaded body into the temp file; `execResult cmd` is the outcome of
`child_process.exec cmd` (`Except.error` carries `err.message`);
`execStdout`/`execStderr` are the captured process output; `fileSize` is the
size `fsp.stat` reports; `tsStr` abstracts the ISO timestamp text of a log
line and `mbStr` the floating-point megabyte rendering of `fileSize` (both
are pure formatting that no handler branches on). -/
structure Oracle where
  fetchStatus : String → Nat
  responseText : String → String
  streamResult : Except String Unit
  execResult : String → Except String Unit
  execStdout : String → String
  execStderr : String → String
  fileSize : Nat
  tsStr : String
  mbStr : String

/-- JavaScript truthiness of a possibly-missing string field:
`undefined` and `""` are falsy. -/
def truthy : Option String → Bool
  | none => false
  | some s => s != ""

/-- JavaScript string coercion of a possibly-missing field, as produced by
template interpolation: `undefined` prints as "undefined". -/
def jsStr : Option String → String
  | none => "undefined"
  | some s => s

/-- `r.ok` of fetch: status in the 2xx success range. -/
def httpOk (st : Nat) : Bool := decide (200 ≤ st) && decide (st < 300)

/-- node-fetch accepts only absolute http(s) URLs. -/
def isHttpUrl (s : String) : Bool :=
  List.isPrefixOf "http://".data s.data || List.isPrefixOf "https://".data s.data

/-- `fetch url`: node-fetch rejects a non-absolute URL before any network
traffic; otherwise the oracle's HTTP status is returned. -/
def fetchStatusOf (o : Oracle) (url : String) : Except String Nat :=
  if isHttpUrl url then .ok (o.fetchStatus url) else .error "Only absolute URLs are supported"

/-- First chunk of `s.split("?")`: the prefix of `s` before the first `?`
(the whole of `s` when it has no `?`), as used for `upload_url.split("?")[0]`. -/
def splitQ (s : String) : String := String.mk (s.data.takeWhile (fun c => c != '?'))

/-- `s.slice(0, n)` (string truncation used on captured process output). -/
def takeChars (n : Nat) (s : String) : String := String.mk (s.data.take n)

/-- Is `needle` a contiguous run somewhere inside `hay`? -/
def occursWithin (needle : List Char) : List Char → Bool
  | [] => needle.isEmpty
  | c :: t => List.isPrefixOf needle (c :: t) || occursWithin needle t

/-- Substring test (used only in theorem statements about error messages). -/
def strContains (hay needle : String) : Bool := occursWithin needle.data hay.data

/-- The `finally` cleanup shared by index.js and part_001: each of the two
temp-path variables is unlinked only if it was assigned (the variables start
as the falsy `""` and are only ever reassigned to nonempty `/tmp` paths, so
the assignment state is modelled by `Option`). -/
def finClean (fs : FS) (inP outP : Option String) : FS :=
  let f1 := match inP with
    | some p => fs.unlink p
    | none => fs
  match outP with
  | some p => f1.unlink p
  | none => f1

/-- Is the stream_url key present with a non-empty value? -/
def presentNonEmpty : Option String → Bool
  | none => false
  | some u => u != ""

/-! ## src/index.js -/

/-- The ffmpeg command line built by index.js (single-quote-free string
interpolation of the two temp paths). -/
def ffmpegCmdIndex (inP outP : String) : String :=
  "ffmpeg -y -i " ++ inP ++ " -c:v libx264 -preset veryfast -crf 23 " ++
  "-pix_fmt yuv420p -c:a aac -b:a 128k -movflags +faststart " ++ outP

/-- Log lines produced by index.js's `run` callback from captured output
(each only when non-empty, truncated to 2000 characters). -/
def runLogsIndex (o : Oracle) (cmd : String) : List String :=
  (if o.execStdout cmd != "" then ["ffmpeg stdout: " ++ takeChars 2000 (o.execStdout cmd)] else []) ++
  (if o.execStderr cmd != "" then ["ffmpeg stderr: " ++ takeChars 2000 (o.execStderr cmd)] else [])

/-- index.js `catch` + `finally`: log the error, send a 500 error body,
then unlink both temp paths. -/
def indexJsCatch (m : String) (logs : List String) (fs : FS) (tr : List Event)
    (inP outP : String) : JobOut :=
  { resp := { httpStatus := 500, status := "error", job_id := none, match_id := none,
              stream_url := none, error := some m, logs := logs ++ ["ERROR: " ++ m] },
    fs := finClean fs (some inP) (some outP), trace := tr }

/-- Shallow embedding of the POST /process handler of src/index.js. -/
def processIndexJs (o : Oracle) (req : Request) (fs0 : FS) : JobOut :=
  if !(truthy req.input_video_url && truthy req.match_id && truthy req.upload_url) then
    { resp := { httpStatus := 400, status := "error", job_id := none, match_id := none,
                stream_url := none, error := some "Missing required fields", logs := [] },
      fs := fs0, trace := [] }
  else
    let url_in := jsStr req.input_video_url
    let mid := jsStr req.match_id
    let upl := jsStr req.upload_url
    let inP := "/tmp/input-" ++ mid
    let outP := "/tmp/output-" ++ mid ++ ".mp4"
    let logs1 := ["JOB START match_id=" ++ mid, "Downloading video..."]
    let tr1 := [Event.download url_in]
    match fetchStatusOf o url_in with
    | .error m => indexJsCatch m logs1 fs0 tr1 inP outP
    | .ok st =>
      if !httpOk st then
        indexJsCatch ("Download failed: " ++ toString st) logs1 fs0 tr1 inP outP
      else
        let fsA := fs0.create inP
        match o.streamResult with
        | .error m => indexJsCatch m logs1 fsA tr1 inP outP
        | .ok _ =>
          let logs2 := logs1 ++ ["Download complete, size=" ++ toString o.fileSize,
                                 "Running ffmpeg TRANSCODE (safe mode)..."]
          let cmd := ffmpegCmdIndex inP outP
          let tr2 := tr1 ++ [Event.exec cmd]
          let logs3 := logs2 ++ runLogsIndex o cmd
          match o.execResult cmd with
          | .error m => indexJsCatch m logs3 fsA tr2 inP outP
          | .ok _ =>
            let fsB := fsA.create outP
            let logs4 := logs3 ++ ["Transcode successful", "Uploading processed video..."]
            let tr3 := tr2 ++ [Event.upload upl]
            match fetchStatusOf o upl with
            | .error m => indexJsCatch m logs4 fsB tr3 inP outP
            | .ok ust =>
              if !httpOk ust then
                indexJsCatch ("Upload failed: " ++ toString ust) logs4 fsB tr3 inP outP
              else
                { resp := { httpStatus := 200, status := "success", job_id := none,
                            match_id := some mid, stream_url := some (splitQ upl),
                            error := none,
                            logs := logs4 ++ ["Upload complete", "JOB SUCCESS"] },
                  fs := finClean fsB (some inP) (some outP), trace := tr3 }

/-! ## src/unnamed/part_000 -/

/-- The remux command line of part_000. -/
def remuxCmd000 (inP outP : String) : String :=
  "ffmpeg -y -i " ++ inP ++ " -c copy -movflags +faststart " ++ outP

/-- The fallback transcode command line of part_000. -/
def transcodeCmd000 (inP outP : String) : String :=
  "ffmpeg -y -i " ++ inP ++
  " -c:v libx264 -preset veryfast -crf 23 -c:a aac -b:a 128k -movflags +faststart " ++ outP

/-- part_000 `catch`: the error is written only to console.error, not to the
job log, and there is no `finally`, so the filesystem is left as is. -/
def p000Catch (m : String) (logs : List String) (fs : FS) (tr : List Event) : JobOut :=
  { resp := { httpStatus := 500, status := "error", job_id := none, match_id := none,
              stream_url := none, error := some m, logs := logs },
    fs := fs, trace := tr }

/-- The upload-and-respond tail of part_000 reached after either remux or the
fallback transcode has produced the output file. -/
def p000UploadTail (o : Oracle) (req : Request) (logs : List String) (fs : FS)
    (tr : List Event) : Option JobOut :=
  let upl := jsStr req.upload_url
  let logs1 := logs ++ ["Uploading processed video..."]
  let tr1 := tr ++ [Event.upload upl]
  match fetchStatusOf o upl with
  | .error m => some (p000Catch m logs1 fs tr1)
  | .ok ust =>
    if !httpOk ust then some (p000Catch "Upload failed" logs1 fs tr1)
    else
      some { resp := { httpStatus := 200, status := "success", job_id := none,
                       match_id := req.match_id, stream_url := some (splitQ upl),
                       error := none, logs := logs1 ++ ["Upload complete", "JOB SUCCESS"] },
             fs := fs, trace := tr1 }

/-- Shallow embedding of the POST /process handler of src/unnamed/part_000.
The download promise only registers a `finish` listener, so a body-stream
error leaves the handler pending forever: that outcome is `none` (no
response is ever produced). -/
def processPart000 (o : Oracle) (req : Request) (fs0 : FS) : Option JobOut :=
  let mid := jsStr req.match_id
  let url_in := jsStr req.input_video_url
  let inP := "/tmp/input-" ++ mid ++ ".mp4"
  let outP := "/tmp/output-" ++ mid ++ ".mp4"
  let logs1 := ["JOB START match_id=" ++ mid, "Downloading video..."]
  let tr1 := [Event.download url_in]
  match fetchStatusOf o url_in with
  | .error m => some (p000Catch m logs1 fs0 tr1)
  | .ok st =>
    if !httpOk st then some (p000Catch "Failed to download input video" logs1 fs0 tr1)
    else
      let fsA := fs0.create inP
      match o.streamResult with
      | .error _ => none
      | .ok _ =>
        let logs2 := logs1 ++ ["Download complete", "Running ffmpeg remux..."]
        let rcmd := remuxCmd000 inP outP
        let tr2 := tr1 ++ [Event.exec rcmd]
        match o.execResult rcmd with
        | .ok _ =>
          p000UploadTail o req (logs2 ++ ["Remux successful"]) (fsA.create outP) tr2
        | .error _ =>
          let logs3 := logs2 ++ ["Remux failed, falling back to transcode"]
          let tcmd := transcodeCmd000 inP outP
          let tr3 := tr2 ++ [Event.exec tcmd]
          match o.execResult tcmd with
          | .error m => some (p000Catch m logs3 fsA tr3)
          | .ok _ =>
            p000UploadTail o req (logs3 ++ ["Transcode successful"]) (fsA.create outP) tr3

/-! ## src/unnamed/part_001 -/

/-- part_001 log-line format: timestamped and tagged with the job id
(the timestamp text is abstracted by the oracle). -/
def p001Line (o : Oracle) (jobId : String) (m : String) : String :=
  "[" ++ o.tsStr ++ "] [job:" ++ jobId ++ "] " ++ m

/-- Append one part_001 log line. -/
def p001Log (o : Oracle) (jobId : String) (logs : List String) (m : String) : List String :=
  logs ++ [p001Line o jobId m]

/-- The quoted ffmpeg command line built by part_001. -/
def ffmpegCmd001 (inP outP : String) : String :=
  "ffmpeg -y -i \"" ++ inP ++ "\" -c:v libx264 -preset veryfast -crf 23 -pix_fmt yuv420p " ++
  "-c:a aac -b:a 128k -movflags +faststart \"" ++ outP ++ "\""

/-- Log lines produced by part_001's `runCmd` from captured output
(each only when non-empty; stdout truncated to 4000, stderr to 8000). -/
def runLogs001 (o : Oracle) (jobId : String) (cmd : String) : List String :=
  (if o.execStdout cmd != "" then [p001Line o jobId ("cmd stdout: " ++ takeChars 4000 (o.execStdout cmd))] else []) ++
  (if o.execStderr cmd != "" then [p001Line o jobId ("cmd stderr: " ++ takeChars 8000 (o.execStderr cmd))] else [])

/-- `supabase_url.replace` of the trailing-slash regex: strip all `/` from
the end of the string. -/
def rstripSlashes (s : String) : String :=
  String.mk ((s.data.reverse.dropWhile (fun c => c == '/')).reverse)

/-- Character-separator split with JavaScript `String.prototype.split`
semantics (empty chunks kept, `[]` input yields one empty chunk). -/
def splitOnChar (sep : Char) : List Char → List (List Char)
  | [] => [[]]
  | c :: cs =>
    let r := splitOnChar sep cs
    if c == sep then [] :: r
    else
      match r with
      | [] => [[c]]
      | h :: t => (c :: h) :: t

/-- `object_path.split("/")`. -/
def jsSplitSlash (s : String) : List String := (splitOnChar '/' s.data).map String.mk

/-- `segments.join("/")`. -/
def joinSlash : List String → String
  | [] => ""
  | [x] => x
  | x :: xs => x ++ "/" ++ joinSlash xs

/-- Characters `encodeURIComponent` leaves unescaped:
ASCII alphanumerics and `- _ . ! ~ * ' ( )`. -/
def uriUnreserved (c : Char) : Bool :=
  c.isAlphanum || c == '-' || c == '_' || c == '.' || c == '!' || c == '~' ||
  c == '*' || c == Char.ofNat 39 || c == '(' || c == ')'

/-- Uppercase hex digit of `n < 16`. -/
def hexDigit (n : Nat) : Char :=
  if n < 10 then Char.ofNat (48 + n) else Char.ofNat (55 + n)

/-- UTF-8 byte sequence of a code point. -/
def utf8Bytes (n : Nat) : List Nat :=
  if n < 128 then [n]
  else if n < 2048 then [192 + n / 64, 128 + n % 64]
  else if n < 65536 then [224 + n / 4096, 128 + (n / 64) % 64, 128 + n % 64]
  else [240 + n / 262144, 128 + (n / 4096) % 64, 128 + (n / 64) % 64, 128 + n % 64]

/-- Percent-escape of one byte, uppercase hex. -/
def pctByte (b : Nat) : List Char := ['%', hexDigit (b / 16), hexDigit (b % 16)]

/-- JavaScript `encodeURIComponent`: unreserved characters pass through,
every other character is percent-encoded byte-by-byte in UTF-8. -/
def encodeURIComponent (s : String) : String :=
  String.mk (s.data.flatMap (fun c =>
    if uriUnreserved c then [c] else (utf8Bytes c.toNat).flatMap pctByte))

/-- Per-segment encoding of an object path, from `uploadToSupabaseStorage`:
split on `/`, encode each segment, re-join with `/`. -/
def supabaseSafePath (object_path : String) : String :=
  joinSlash ((jsSplitSlash object_path).map encodeURIComponent)

/-- The Storage API endpoint URL built by `uploadToSupabaseStorage`. -/
def supabaseObjectUrl (supabase_url storage_bucket object_path : String) : String :=
  rstripSlashes supabase_url ++ "/storage/v1/object/" ++
  encodeURIComponent storage_bucket ++ "/" ++ supabaseSafePath object_path

/-- The public object URL computed by `uploadToSupabaseStorage` on success. -/
def supabasePublicUrl (supabase_url storage_bucket object_path : String) : String :=
  rstripSlashes supabase_url ++ "/storage/v1/object/public/" ++
  encodeURIComponent storage_bucket ++ "/" ++ supabaseSafePath object_path

/-- Modelled from the spec and claim wording for the storage-API result URL
(claim C10): `supabase_url` with trailing slashes removed, then
`/storage/v1/object/public/`, the URI-encoded bucket, `/`, and the object
path `processed/<match_id>/stream.mp4` with each path segment URI-encoded.
To be compared with the URL the source computes. -/
def storagePublicUrlSpec (supabase_url storage_bucket mid : String) : String :=
  rstripSlashes supabase_url ++ "/storage/v1/object/public/" ++
  encodeURIComponent storage_bucket ++ "/" ++
  joinSlash ((jsSplitSlash ("processed/" ++ mid ++ "/stream.mp4")).map encodeURIComponent)

/-- part_001 `catch` + `finally`: log the error, send a body carrying the
job id and `err.statusCode || 500`, then unlink whichever temp paths were
assigned. -/
def p001Catch (o : Oracle) (jobId : String) (code : Nat) (m : String)
    (logs : List String) (fs : FS) (inP outP : Option String) (tr : List Event) : JobOut :=
  { resp := { httpStatus := code, status := "error", job_id := some jobId, match_id := none,
              stream_url := none, error := some m,
              logs := p001Log o jobId logs ("ERROR: " ++ m) },
    fs := finClean fs inP outP, trace := tr }

/-- Shallow embedding of the POST /process handler of src/unnamed/part_001.
`secret` is the WORKER_SECRET environment value ("" when unset) and `jobId`
the `crypto.randomUUID()` drawn at entry. -/
def processPart001 (secret jobId : String) (o : Oracle) (req : Request) (fs0 : FS) : JobOut :=
  if secret != "" && (req.authHeader.getD "") != ("Bearer " ++ secret) then
    p001Catch o jobId 401 "Unauthorized" [] fs0 none none []
  else if !(truthy req.input_video_url && truthy req.match_id && truthy req.storage_bucket &&
            truthy req.supabase_url && truthy req.supabase_key) then
    { resp := { httpStatus := 400, status := "error", job_id := none, match_id := none,
                stream_url := none,
                error := some "Missing required fields. Need: input_video_url, match_id, storage_bucket, supabase_url, supabase_key",
                logs := [] },
      fs := fs0, trace := [] }
  else
    let url_in := jsStr req.input_video_url
    let mid := jsStr req.match_id
    let bucket := jsStr req.storage_bucket
    let supa := jsStr req.supabase_url
    let inP := "/tmp/input-" ++ mid
    let outP := "/tmp/stream-" ++ mid ++ ".mp4"
    let logs1 := p001Log o jobId (p001Log o jobId [] ("JOB START match_id=" ++ mid)) ("Bucket=" ++ bucket)
    let logs2 := p001Log o jobId logs1 ("Downloading input: " ++ url_in)
    let tr1 := [Event.download url_in]
    match fetchStatusOf o url_in with
    | .error m => p001Catch o jobId 500 m logs2 fs0 (some inP) (some outP) tr1
    | .ok st =>
      if !httpOk st then
        p001Catch o jobId 500 ("Download failed HTTP " ++ toString st) logs2 fs0 (some inP) (some outP) tr1
      else
        let fsA := fs0.create inP
        match o.streamResult with
        | .error m => p001Catch o jobId 500 m logs2 fsA (some inP) (some outP) tr1
        | .ok _ =>
          let logs3 := p001Log o jobId logs2 ("Download complete (" ++ o.mbStr ++ " MB)")
          let logs4 := p001Log o jobId logs3 "Running ffmpeg TRANSCODE (safe mode: H.264 + AAC + faststart)..."
          let cmd := ffmpegCmd001 inP outP
          let tr2 := tr1 ++ [Event.exec cmd]
          let logs5 := logs4 ++ runLogs001 o jobId cmd
          match o.execResult cmd with
          | .error m => p001Catch o jobId 500 m logs5 fsA (some inP) (some outP) tr2
          | .ok _ =>
            let fsB := fsA.create outP
            let logs6 := p001Log o jobId logs5 "ffmpeg transcode successful ✅"
            let objectPath := "processed/" ++ mid ++ "/stream.mp4"
            let upUrl := supabaseObjectUrl supa bucket objectPath
            let logs7 := p001Log o jobId logs6
              ("Uploading to Supabase Storage: bucket=" ++ bucket ++ " path=" ++ objectPath)
            let tr3 := tr2 ++ [Event.upload upUrl]
            match fetchStatusOf o upUrl with
            | .error m => p001Catch o jobId 500 m logs7 fsB (some inP) (some outP) tr3
            | .ok ust =>
              if !httpOk ust then
                p001Catch o jobId 500
                  ("Supabase upload failed HTTP " ++ toString ust ++ ": " ++
                   takeChars 300 (o.responseText upUrl))
                  logs7 fsB (some inP) (some outP) tr3
              else
                let publicUrl := supabasePublicUrl supa bucket objectPath
                let logs8 := p001Log o jobId logs7 ("Upload complete. public stream_url=" ++ publicUrl)
                let logs9 := p001Log o jobId logs8 "JOB SUCCESS ✅"
                { resp := { httpStatus := 200, status := "success", job_id := some jobId,
                            match_id := some mid, stream_url := some publicUrl, error := none,
                            logs := logs9 },
                  fs := finClean fsB (some inP) (some outP), trace := tr3 }

/-! ## Concrete fixtures for witnesses and counterexamples -/

/-- The empty filesystem. -/
def fsEmpty : FS := ⟨[]⟩

/-- Placeholder output used by `outOf` on a pending handler. -/
def defaultJobOut : JobOut :=
  { resp := { httpStatus := 0, status := "", job_id := none, match_id := none,
              stream_url := none, error := none, logs := [] },
    fs := fsEmpty, trace := [] }

/-- Project the output of a handler that may hang (part_000). -/
def outOf (x : Option JobOut) : JobOut := x.getD defaultJobOut

/-- A fully cooperative environment: every request answers 200, the body
stream and every command succeed. -/
def oracleAllOk : Oracle :=
  { fetchStatus := fun _ => 200, responseText := fun _ => "", streamResult := .ok (),
    execResult := fun _ => .ok (), execStdout := fun _ => "", execStderr := fun _ => "",
    fileSize := 5, tsStr := "2026-01-01T00:00:00.000Z", mbStr := "0.0" }

/-- Environment in which the remux command of job m1 exits non-zero while
everything else succeeds. -/
def oRemuxFail : Oracle :=
  { oracleAllOk with
    execResult := fun c =>
      if c == remuxCmd000 "/tmp/input-m1.mp4" "/tmp/output-m1.mp4" then
        .error "Command failed: ffmpeg" else .ok () }

/-- Environment in which the remux of job m1 fails, the fallback transcode
succeeds, and the upload target answers 503. -/
def oRemuxFailUploadFail : Oracle :=
  { oRemuxFail with
    fetchStatus := fun u => if u == "https://in.example/v.mp4" then 200 else 503 }

/-- Environment in which everything succeeds except that the upload target
answers 503. -/
def oUploadFail : Oracle :=
  { oracleAllOk with
    fetchStatus := fun u => if u == "https://in.example/v.mp4" then 200 else 503 }

/-- The presigned-destination job of the spec scenario: match m1, reachable
input, destination upload_url with a signature query. -/
def reqPresigned : Request :=
  { authHeader := none, input_video_url := some "https://in.example/v.mp4",
    match_id := some "m1", upload_url := some "https://x/put?sig=abc",
    storage_bucket := none, supabase_url := none, supabase_key := none }

/-- The spec scenario request missing `match_id`. -/
def reqNoMid : Request := { reqPresigned with match_id := none }

/-- A presigned-destination job whose match_id carries shell metacharacters. -/
def reqInjection : Request := { reqPresigned with match_id := some "m1; rm -rf /tmp" }

/-- A storage-API-destination job for the part_001 handler. -/
def reqStorage : Request :=
  { authHeader := none, input_video_url := some "https://in.example/v.mp4",
    match_id := some "m1", upload_url := none,
    storage_bucket := some "videos", supabase_url := some "https://proj.supabase.co/",
    supabase_key := some "key1" }

/-- Is an event a download attempt? -/
def isDownload : Event → Bool
  | .download _ => true
  | _ => false

/-- Does an event run a command whose line contains the injected suffix of
`reqInjection`'s match_id? -/
def execHasInjection : Event → Bool
  | .exec c => strContains c "; rm -rf /tmp"
  | _ => false

/-- View for claim C1: status of the response together with whether the two
temp files of job m1 still exist afterwards. -/
def c1View (x : Option JobOut) : Option (String × Bool × Bool) :=
  x.map (fun out => (out.resp.status, out.fs.hasFile "/tmp/input-m1.mp4",
                     out.fs.hasFile "/tmp/output-m1.mp4"))

/-- View for claim C2: status of the response together with whether a
download was attempted. -/
def c2View (x : Option JobOut) : Option (String × Bool) :=
  x.map (fun out => (out.resp.status, out.trace.any isDownload))

/-- View for claim C3: status together with whether the log holds the
remux-failure and transcode-success lines. -/
def c3View (x : Option JobOut) : Option (String × Bool × Bool) :=
  x.map (fun out => (out.resp.status,
                     out.resp.logs.contains "Remux failed, falling back to transcode",
                     out.resp.logs.contains "Transcode successful"))

/-- View for claim C7: status, error message, and whether that message
mentions the upload response status 503. -/
def c7View (x : Option JobOut) : Option (String × Option String × Bool) :=
  x.map (fun out => (out.resp.status, out.resp.error,
                     strContains (out.resp.error.getD "") "503"))

/-! ## Basic lemmas about the filesystem model -/

theorem contains_filter_ne (p : String) (l : List String) :
    (l.filter (fun q => q != p)).contains p = false := by
  simp [List.mem_filter]

theorem contains_filter_sub (p q : String) (l : List String) (h : l.contains q = false) :
    (l.filter (fun r => r != p)).contains q = false := by
  simp at h
  simp [List.mem_filter]
  intro hq
  exact absurd hq h

theorem hasFile_unlink_self (fs : FS) (p : String) : (fs.unlink p).hasFile p = false :=
  contains_filter_ne p fs.paths

theorem hasFile_unlink_sub (fs : FS) (p q : String) (h : fs.hasFile q = false) :
    (fs.unlink p).hasFile q = false :=
  contains_filter_sub p q fs.paths h

theorem finClean_hasFile_fst (fs : FS) (a b : String) :
    (finClean fs (some a) (some b)).hasFile a = false :=
  hasFile_unlink_sub _ _ _ (hasFile_unlink_self fs a)

theorem finClean_hasFile_snd (fs : FS) (a b : String) :
    (finClean fs (some a) (some b)).hasFile b = false :=
  hasFile_unlink_self _ b

/-! ## Basic lemmas about URLs and strings -/

theorem isHttpUrl_of_fetchOk {o : Oracle} {u : String} {st : Nat}
    (h : fetchStatusOf o u = .ok st) : isHttpUrl u = true := by
  unfold fetchStatusOf at h
  by_cases hh : isHttpUrl u
  · exact hh
  · simp [hh] at h

theorem data_append (a b : String) : (a ++ b).data = a.data ++ b.data := rfl

theorem append_ne_empty_left (a b : String) (h : a ≠ "") : a ++ b ≠ "" := by
  intro hab
  apply h
  have hd := congrArg String.data hab
  rw [data_append] at hd
  rcases List.append_eq_nil.mp hd with ⟨h1, _⟩
  exact String.ext h1

theorem append_ne_empty_right (a b : String) (h : b ≠ "") : a ++ b ≠ "" := by
  intro hab
  apply h
  have hd := congrArg String.data hab
  rw [data_append] at hd
  rcases List.append_eq_nil.mp hd with ⟨_, h2⟩
  exact String.ext h2

theorem supabasePublicUrl_ne_empty (s b p : String) : supabasePublicUrl s b p ≠ "" := by
  unfold supabasePublicUrl
  apply append_ne_empty_left
  apply append_ne_empty_left
  apply append_ne_empty_left
  apply append_ne_empty_right
  decide

theorem head_h_of_isHttpUrl {u : String} (h : isHttpUrl u = true) :
    ∃ t, u.data = 'h' :: t := by
  unfold isHttpUrl at h
  cases hd : u.data with
  | nil => rw [hd] at h; simp [List.isPrefixOf] at h
  | cons c cs =>
    rw [hd] at h
    rcases Bool.or_eq_true _ _ |>.mp h with h1 | h1
    · simp [List.isPrefixOf] at h1
      exact ⟨cs, by rw [h1.1]⟩
    · simp [List.isPrefixOf] at h1
      exact ⟨cs, by rw [h1.1]⟩

theorem splitQ_ne_empty_of_http {u : String} (h : isHttpUrl u = true) : splitQ u ≠ "" := by
  obtain ⟨t, ht⟩ := head_h_of_isHttpUrl h
  unfold splitQ
  rw [ht]
  intro hc
  have := congrArg String.data hc
  simp [List.takeWhile] at this

theorem isHttpUrl_ne_empty {u : String} (h : isHttpUrl u = true) : u ≠ "" := by
  obtain ⟨t, ht⟩ := head_h_of_isHttpUrl h
  intro hc
  rw [hc] at ht
  simp at ht

/-! ## Branch-shape lemmas: every run of a handler is a missing-field
rejection, an auth rejection, a caught error, a hang, or a success, and in
each case the response, final filesystem, and trace have a fixed shape. -/

theorem processIndexJs_shape (o : Oracle) (req : Request) (fs0 : FS) :
    (processIndexJs o req fs0 =
      ⟨⟨400, "error", none, none, none, some "Missing required fields", []⟩, fs0, []⟩)
    ∨ (∃ m logs fs tr, processIndexJs o req fs0 =
        indexJsCatch m logs fs tr ("/tmp/input-" ++ jsStr req.match_id)
          ("/tmp/output-" ++ jsStr req.match_id ++ ".mp4"))
    ∨ (∃ logs fs tr, isHttpUrl (jsStr req.upload_url) = true ∧ processIndexJs o req fs0 =
        ⟨⟨200, "success", none, some (jsStr req.match_id),
          some (splitQ (jsStr req.upload_url)), none, logs⟩,
         finClean fs (some ("/tmp/input-" ++ jsStr req.match_id))
           (some ("/tmp/output-" ++ jsStr req.match_id ++ ".mp4")), tr⟩) := by
  unfold processIndexJs
  repeat' (first | split | dsimp only)
  all_goals
    first
      | exact Or.inl rfl
      | exact Or.inr (Or.inl ⟨_, _, _, _, rfl⟩)
      | exact Or.inr (Or.inr ⟨_, _, _, isHttpUrl_of_fetchOk (by assumption), rfl⟩)

theorem processPart000_shape (o : Oracle) (req : Request) (fs0 : FS) :
    (∃ m logs fs tr, processPart000 o req fs0 = some (p000Catch m logs fs tr))
    ∨ processPart000 o req fs0 = none
    ∨ (∃ logs fs tr, isHttpUrl (jsStr req.upload_url) = true ∧ processPart000 o req fs0 =
        some ⟨⟨200, "success", none, req.match_id, some (splitQ (jsStr req.upload_url)),
               none, logs⟩, fs, tr⟩) := by
  unfold processPart000 p000UploadTail
  repeat' (first | split | dsimp only)
  all_goals
    first
      | exact Or.inr (Or.inl rfl)
      | exact Or.inl ⟨_, _, _, _, rfl⟩
      | exact Or.inr (Or.inr ⟨_, _, _, isHttpUrl_of_fetchOk (by assumption), rfl⟩)

theorem processPart001_shape (secret jobId : String) (o : Oracle) (req : Request) (fs0 : FS) :
    (processPart001 secret jobId o req fs0 =
       p001Catch o jobId 401 "Unauthorized" [] fs0 none none [])
    ∨ (processPart001 secret jobId o req fs0 =
        ⟨⟨400, "error", none, none, none,
          some "Missing required fields. Need: input_video_url, match_id, storage_bucket, supabase_url, supabase_key",
          []⟩, fs0, []⟩)
    ∨ (∃ m logs fs tr, processPart001 secret jobId o req fs0 =
        p001Catch o jobId 500 m logs fs (some ("/tmp/input-" ++ jsStr req.match_id))
          (some ("/tmp/stream-" ++ jsStr req.match_id ++ ".mp4")) tr)
    ∨ (∃ logs fs, processPart001 secret jobId o req fs0 =
        ⟨⟨200, "success", some jobId, some (jsStr req.match_id),
          some (supabasePublicUrl (jsStr req.supabase_url) (jsStr req.storage_bucket)
            ("processed/" ++ jsStr req.match_id ++ "/stream.mp4")), none, logs⟩,
         finClean fs (some ("/tmp/input-" ++ jsStr req.match_id))
           (some ("/tmp/stream-" ++ jsStr req.match_id ++ ".mp4")),
         [Event.download (jsStr req.input_video_url),
          Event.exec (ffmpegCmd001 ("/tmp/input-" ++ jsStr req.match_id)
            ("/tmp/stream-" ++ jsStr req.match_id ++ ".mp4")),
          Event.upload (supabaseObjectUrl (jsStr req.supabase_url) (jsStr req.storage_bucket)
            ("processed/" ++ jsStr req.match_id ++ "/stream.mp4"))]⟩) := by
  unfold processPart001
  repeat' (first | split | dsimp only)
  all_goals
    first
      | exact Or.inl rfl
      | exact Or.inr (Or.inl rfl)
      | exact Or.inr (Or.inr (Or.inl ⟨_, _, _, _, rfl⟩))
      | exact Or.inr (Or.inr (Or.inr ⟨_, _, rfl⟩))

/-! ## Claim C1 — cleanup of temp files at every terminal outcome -/

/-- Claim C1, counterexample: in the part_000 variant a job that terminates
successfully (response status "success") leaves both of its temp files,
/tmp/input-m1.mp4 and /tmp/output-m1.mp4, on the filesystem: part_000 has no
cleanup, refuting the claim for that handler. -/
theorem C1_counterexample :
    c1View (processPart000 oracleAllOk reqPresigned fsEmpty) = some ("success", true, true) := by
  decide

/-- Claim C1 as amended: in the index.js and part_001 variants, for every
job and every terminal outcome, both of the job's temp files are absent
from the filesystem once the handler completes, provided they did not
pre-exist a run that rejects the request before assigning its temp paths
(the part_000 variant, by contrast, never removes its temp files). -/
theorem C1_amended_cleanup (o : Oracle) (secret jobId : String) (req : Request) (fs0 : FS)
    (h1 : fs0.hasFile ("/tmp/input-" ++ jsStr req.match_id) = false)
    (h2 : fs0.hasFile ("/tmp/output-" ++ jsStr req.match_id ++ ".mp4") = false)
    (h3 : fs0.hasFile ("/tmp/stream-" ++ jsStr req.match_id ++ ".mp4") = false) :
    ((processIndexJs o req fs0).fs.hasFile ("/tmp/input-" ++ jsStr req.match_id) = false ∧
     (processIndexJs o req fs0).fs.hasFile ("/tmp/output-" ++ jsStr req.match_id ++ ".mp4") = false)
    ∧ ((processPart001 secret jobId o req fs0).fs.hasFile ("/tmp/input-" ++ jsStr req.match_id) = false ∧
       (processPart001 secret jobId o req fs0).fs.hasFile ("/tmp/stream-" ++ jsStr req.match_id ++ ".mp4") = false) := by
  constructor
  · rcases processIndexJs_shape o req fs0 with h | ⟨m, logs, fs, tr, h⟩ | ⟨logs, fs, tr, hu, h⟩
    · rw [h]; exact ⟨h1, h2⟩
    · rw [h]; exact ⟨finClean_hasFile_fst _ _ _, finClean_hasFile_snd _ _ _⟩
    · rw [h]; exact ⟨finClean_hasFile_fst _ _ _, finClean_hasFile_snd _ _ _⟩
  · rcases processPart001_shape secret jobId o req fs0 with h | h | ⟨m, logs, fs, tr, h⟩ | ⟨logs, fs, h⟩
    · rw [h]; exact ⟨h1, h3⟩
    · rw [h]; exact ⟨h1, h3⟩
    · rw [h]; exact ⟨finClean_hasFile_fst _ _ _, finClean_hasFile_snd _ _ _⟩
    · rw [h]; exact ⟨finClean_hasFile_fst _ _ _, finClean_hasFile_snd _ _ _⟩

/-- Claim C1 witness: the amended cleanup theorem applied to a concrete
successful job m1 on an empty filesystem. -/
theorem C1_witness :
    ((processIndexJs oracleAllOk reqPresigned fsEmpty).fs.hasFile
        ("/tmp/input-" ++ jsStr reqPresigned.match_id) = false ∧
     (processIndexJs oracleAllOk reqPresigned fsEmpty).fs.hasFile
        ("/tmp/output-" ++ jsStr reqPresigned.match_id ++ ".mp4") = false)
    ∧ ((processPart001 "" "j1" oracleAllOk reqPresigned fsEmpty).fs.hasFile
        ("/tmp/input-" ++ jsStr reqPresigned.match_id) = false ∧
       (processPart001 "" "j1" oracleAllOk reqPresigned fsEmpty).fs.hasFile
        ("/tmp/stream-" ++ jsStr reqPresigned.match_id ++ ".mp4") = false) :=
  C1_amended_cleanup oracleAllOk "" "j1" reqPresigned fsEmpty (by decide) (by decide) (by decide)

/-! ## Claim C2 — missing-field requests are rejected with 400 and no work -/

/-- Claim C2, counterexample: the part_000 variant performs no validation:
a request with match_id missing not only fails to produce a 400 "error"
response, it attempts the download (and here completes the whole pipeline
with status "success"), refuting the claim for that handler. -/
theorem C2_counterexample :
    c2View (processPart000 oracleAllOk reqNoMid fsEmpty) = some ("success", true) := by
  decide

/-- Claim C2 as amended: in the index.js and part_001 variants (for
part_001, provided the bearer check passes), every request missing a
required field produces exactly the 400 "error" response with empty logs,
leaves the filesystem untouched, and attempts no download, command, or
upload; part_000 has no such validation. -/
theorem C2_amended_validation :
    (∀ (o : Oracle) (req : Request) (fs0 : FS),
      (truthy req.input_video_url && truthy req.match_id && truthy req.upload_url) = false →
      processIndexJs o req fs0 =
        ⟨⟨400, "error", none, none, none, some "Missing required fields", []⟩, fs0, []⟩)
    ∧ (∀ (secret jobId : String) (o : Oracle) (req : Request) (fs0 : FS),
        (secret = "" ∨ req.authHeader.getD "" = "Bearer " ++ secret) →
        (truthy req.input_video_url && truthy req.match_id && truthy req.storage_bucket &&
         truthy req.supabase_url && truthy req.supabase_key) = false →
        processPart001 secret jobId o req fs0 =
          ⟨⟨400, "error", none, none, none,
            some "Missing required fields. Need: input_video_url, match_id, storage_bucket, supabase_url, supabase_key",
            []⟩, fs0, []⟩) := by
  constructor
  · intro o req fs0 h
    unfold processIndexJs
    rw [h]
    rfl
  · intro secret jobId o req fs0 hauth h
    have hcond : (secret != "" && (req.authHeader.getD "") != ("Bearer " ++ secret)) = false := by
      rcases hauth with h1 | h1 <;> simp [h1]
    unfold processPart001
    rw [hcond, h]
    rfl

/-- Claim C2 witness: the amended validation theorem applied to the
concrete index.js request with match_id missing. -/
theorem C2_witness :
    processIndexJs oracleAllOk reqNoMid fsEmpty =
      ⟨⟨400, "error", none, none, none, some "Missing required fields", []⟩, fsEmpty, []⟩ :=
  C2_amended_validation.1 oracleAllOk reqNoMid fsEmpty (by decide)

/-! ## Claim C3 — remux failure falls back to a full transcode -/

/-- Claim C3, counterexample: a part_000 job in which the remux attempt
fails and the fallback transcode succeeds (both lines are in the log) still
ends with status "error" when the subsequent upload fails, refuting the
claim as stated (it promises success from the transcode stage alone). -/
theorem C3_counterexample :
    c3View (processPart000 oRemuxFailUploadFail reqPresigned fsEmpty) =
      some ("error", true, true) := by
  decide

/-- Claim C3 as amended: for every part_000 job in which the download
succeeds, the remux attempt exits non-zero, the fallback transcode
succeeds, and the upload also succeeds, the job reaches status "success"
and the log contains the remux-failure line (at index 4) before the
transcode-success line (at index 5). -/
theorem C3_amended_fallback (o : Oracle) (req : Request) (fs0 : FS) (ui uu em : String)
    (hvu : req.input_video_url = some ui) (hui : isHttpUrl ui = true)
    (hist : httpOk (o.fetchStatus ui) = true)
    (hstream : o.streamResult = .ok ())
    (hrem : o.execResult (remuxCmd000 ("/tmp/input-" ++ jsStr req.match_id ++ ".mp4")
        ("/tmp/output-" ++ jsStr req.match_id ++ ".mp4")) = .error em)
    (htr : o.execResult (transcodeCmd000 ("/tmp/input-" ++ jsStr req.match_id ++ ".mp4")
        ("/tmp/output-" ++ jsStr req.match_id ++ ".mp4")) = .ok ())
    (huu : req.upload_url = some uu) (huok : isHttpUrl uu = true)
    (hust : httpOk (o.fetchStatus uu) = true) :
    (outOf (processPart000 o req fs0)).resp.status = "success"
    ∧ (outOf (processPart000 o req fs0)).resp.logs[4]? =
        some "Remux failed, falling back to transcode"
    ∧ (outOf (processPart000 o req fs0)).resp.logs[5]? = some "Transcode successful" := by
  simp only [jsStr] at hrem htr
  unfold processPart000 p000UploadTail
  simp only [hvu, huu, jsStr, fetchStatusOf, hui, huok, if_true, hist, hstream, hrem, htr,
    Bool.not_true, Bool.false_eq_true, if_false, hust]
  exact ⟨rfl, rfl, rfl⟩

/-- Claim C3 witness: the amended fallback theorem applied to the concrete
job m1 whose remux command fails while everything else succeeds. -/
theorem C3_witness :
    (outOf (processPart000 oRemuxFail reqPresigned fsEmpty)).resp.status = "success"
    ∧ (outOf (processPart000 oRemuxFail reqPresigned fsEmpty)).resp.logs[4]? =
        some "Remux failed, falling back to transcode"
    ∧ (outOf (processPart000 oRemuxFail reqPresigned fsEmpty)).resp.logs[5]? =
        some "Transcode successful" :=
  C3_amended_fallback oRemuxFail reqPresigned fsEmpty
    "https://in.example/v.mp4" "https://x/put?sig=abc" "Command failed: ffmpeg"
    rfl (by decide) (by decide) rfl rfl rfl rfl (by decide) (by decide)

/-! ## Claim C4 — caller input in the transcoder command line -/

/-- Claim C4: the claim (and spec sections 4.2 and 9) require every
caller-supplied field reaching the command line to be validated against
shell metacharacters, or an argument-vector invocation. The code does
neither: a request whose match_id is the string consisting of m1 followed
by a semicolon and a rm -rf command passes validation, the job runs to
"success", and the executed command line contains the injected shell
metacharacters verbatim (the command is run through child_process.exec,
a shell-string form). -/
theorem C4_shell_injection :
    (processIndexJs oracleAllOk reqInjection fsEmpty).resp.status = "success"
    ∧ (processIndexJs oracleAllOk reqInjection fsEmpty).trace.any execHasInjection = true := by
  decide

/-! ## Claim C5 — result URL present and non-empty iff success -/

/-- Claim C5: in all three handlers, the response carries a present,
non-empty stream_url exactly when the response status is "success"; every
error response omits the key. -/
theorem C5_result_url_iff_success :
    (∀ (o : Oracle) (req : Request) (fs0 : FS),
      presentNonEmpty (processIndexJs o req fs0).resp.stream_url = true ↔
        (processIndexJs o req fs0).resp.status = "success")
    ∧ (∀ (o : Oracle) (req : Request) (fs0 : FS) (out : JobOut),
        processPart000 o req fs0 = some out →
        (presentNonEmpty out.resp.stream_url = true ↔ out.resp.status = "success"))
    ∧ (∀ (secret jobId : String) (o : Oracle) (req : Request) (fs0 : FS),
        presentNonEmpty (processPart001 secret jobId o req fs0).resp.stream_url = true ↔
          (processPart001 secret jobId o req fs0).resp.status = "success") := by
  refine ⟨?_, ?_, ?_⟩
  · intro o req fs0
    rcases processIndexJs_shape o req fs0 with h | ⟨m, logs, fs, tr, h⟩ | ⟨logs, fs, tr, hu, h⟩
    · rw [h]; simp [presentNonEmpty]
    · rw [h]; simp [indexJsCatch, presentNonEmpty]
    · rw [h]
      simp [presentNonEmpty, bne_iff_ne]
      exact splitQ_ne_empty_of_http hu
  · intro o req fs0 out hout
    rcases processPart000_shape o req fs0 with ⟨m, logs, fs, tr, h⟩ | h | ⟨logs, fs, tr, hu, h⟩
    · rw [hout] at h
      injection h with h
      rw [h]; simp [p000Catch, presentNonEmpty]
    · rw [hout] at h; exact absurd h (by simp)
    · rw [hout] at h
      injection h with h
      rw [h]
      simp [presentNonEmpty, bne_iff_ne]
      exact splitQ_ne_empty_of_http hu
  · intro secret jobId o req fs0
    rcases processPart001_shape secret jobId o req fs0 with h | h | ⟨m, logs, fs, tr, h⟩ | ⟨logs, fs, h⟩
    · rw [h]; simp [p001Catch, presentNonEmpty]
    · rw [h]; simp [presentNonEmpty]
    · rw [h]; simp [p001Catch, presentNonEmpty]
    · rw [h]
      simp [presentNonEmpty, bne_iff_ne]
      exact supabasePublicUrl_ne_empty _ _ _

/-- Claim C5 witness: the iff applied to a concrete successful part_000
job, whose response indeed carries a non-empty stream_url. -/
theorem C5_witness :
    presentNonEmpty (outOf (processPart000 oracleAllOk reqPresigned fsEmpty)).resp.stream_url = true :=
  (C5_result_url_iff_success.2.1 oracleAllOk reqPresigned fsEmpty
    (outOf (processPart000 oracleAllOk reqPresigned fsEmpty)) (by decide)).mpr (by decide)

/-! ## Claim C6 — response always carries status, job_id and logs -/

/-- Claim C6, counterexample: a successful index.js response has no job_id
key at all, refuting the claim that every response includes a job_id for
correlation (only part_001 generates one). -/
theorem C6_counterexample :
    (processIndexJs oracleAllOk reqPresigned fsEmpty).resp.status = "success"
    ∧ (processIndexJs oracleAllOk reqPresigned fsEmpty).resp.job_id = none := by
  decide

/-- Claim C6 as amended: every response of every handler has status
"success" or "error" and every error response carries an error message
(the message of the thrown error, never a stack trace; logs are a field of
every response by construction).  A job_id is only ever attached by
part_001, on every response except its missing-field 400 rejection;
index.js and part_000 responses never carry one. -/
theorem C6_amended_response_fields :
    (∀ (o : Oracle) (req : Request) (fs0 : FS),
      ((processIndexJs o req fs0).resp.status = "success"
        ∨ (processIndexJs o req fs0).resp.status = "error")
      ∧ ((processIndexJs o req fs0).resp.status = "error" →
           (processIndexJs o req fs0).resp.error ≠ none)
      ∧ (processIndexJs o req fs0).resp.job_id = none)
    ∧ (∀ (o : Oracle) (req : Request) (fs0 : FS) (out : JobOut),
        processPart000 o req fs0 = some out →
        ((out.resp.status = "success" ∨ out.resp.status = "error")
         ∧ (out.resp.status = "error" → out.resp.error ≠ none)
         ∧ out.resp.job_id = none))
    ∧ (∀ (secret jobId : String) (o : Oracle) (req : Request) (fs0 : FS),
        (((processPart001 secret jobId o req fs0).resp.status = "success"
           ∨ (processPart001 secret jobId o req fs0).resp.status = "error")
         ∧ ((processPart001 secret jobId o req fs0).resp.status = "error" →
              (processPart001 secret jobId o req fs0).resp.error ≠ none)
         ∧ ((processPart001 secret jobId o req fs0).resp.job_id = some jobId
             ∨ ((processPart001 secret jobId o req fs0).resp.httpStatus = 400
                 ∧ (processPart001 secret jobId o req fs0).resp.job_id = none)))) := by
  refine ⟨?_, ?_, ?_⟩
  · intro o req fs0
    rcases processIndexJs_shape o req fs0 with h | ⟨m, logs, fs, tr, h⟩ | ⟨logs, fs, tr, hu, h⟩ <;>
      rw [h] <;> simp [indexJsCatch]
  · intro o req fs0 out hout
    rcases processPart000_shape o req fs0 with ⟨m, logs, fs, tr, h⟩ | h | ⟨logs, fs, tr, hu, h⟩
    · rw [hout] at h; injection h with h; rw [h]; simp [p000Catch]
    · rw [hout] at h; exact absurd h (by simp)
    · rw [hout] at h; injection h with h; rw [h]; simp
  · intro secret jobId o req fs0
    rcases processPart001_shape secret jobId o req fs0 with h | h | ⟨m, logs, fs, tr, h⟩ | ⟨logs, fs, h⟩ <;>
      rw [h] <;> simp [p001Catch]

/-- Claim C6 witness: the amended theorem applied to a concrete successful
part_000 run, whose response indeed has no job_id. -/
theorem C6_witness :
    (outOf (processPart000 oracleAllOk reqPresigned fsEmpty)).resp.job_id = none :=
  (C6_amended_response_fields.2.1 oracleAllOk reqPresigned fsEmpty
    (outOf (processPart000 oracleAllOk reqPresigned fsEmpty)) (by decide)).2.2

/-! ## Claim C7 — upload rejection ends the job with the status in the message -/

/-- Claim C7, counterexample: when the upload target answers 503, the
part_000 variant ends with status "error" but its error message is exactly
"Upload failed", which does not mention the response status 503, refuting
the claim for that handler. -/
theorem C7_counterexample :
    c7View (processPart000 oUploadFail reqPresigned fsEmpty) =
      some ("error", some "Upload failed", false) := by
  decide

/-- Claim C7 as amended: for every job whose upload target answers with a
non-2xx status, the job ends with status "error" (HTTP 500).  index.js and
part_001 include the response status in the error message; part_000
reports only "Upload failed" without it. -/
theorem C7_amended_upload_failure :
    (∀ (o : Oracle) (req : Request) (fs0 : FS) (ui uu : String),
      req.input_video_url = some ui → isHttpUrl ui = true →
      truthy req.match_id = true →
      httpOk (o.fetchStatus ui) = true → o.streamResult = .ok () →
      o.execResult (ffmpegCmdIndex ("/tmp/input-" ++ jsStr req.match_id)
        ("/tmp/output-" ++ jsStr req.match_id ++ ".mp4")) = .ok () →
      req.upload_url = some uu → isHttpUrl uu = true →
      httpOk (o.fetchStatus uu) = false →
      (processIndexJs o req fs0).resp.status = "error"
      ∧ (processIndexJs o req fs0).resp.httpStatus = 500
      ∧ (processIndexJs o req fs0).resp.error =
          some ("Upload failed: " ++ toString (o.fetchStatus uu)))
    ∧ (∀ (o : Oracle) (req : Request) (fs0 : FS) (ui uu em : String),
      req.input_video_url = some ui → isHttpUrl ui = true →
      httpOk (o.fetchStatus ui) = true → o.streamResult = .ok () →
      (o.execResult (remuxCmd000 ("/tmp/input-" ++ jsStr req.match_id ++ ".mp4")
          ("/tmp/output-" ++ jsStr req.match_id ++ ".mp4")) = .ok ()
        ∨ (o.execResult (remuxCmd000 ("/tmp/input-" ++ jsStr req.match_id ++ ".mp4")
            ("/tmp/output-" ++ jsStr req.match_id ++ ".mp4")) = .error em
           ∧ o.execResult (transcodeCmd000 ("/tmp/input-" ++ jsStr req.match_id ++ ".mp4")
            ("/tmp/output-" ++ jsStr req.match_id ++ ".mp4")) = .ok ())) →
      req.upload_url = some uu → isHttpUrl uu = true →
      httpOk (o.fetchStatus uu) = false →
      (outOf (processPart000 o req fs0)).resp.status = "error"
      ∧ (outOf (processPart000 o req fs0)).resp.httpStatus = 500
      ∧ (outOf (processPart000 o req fs0)).resp.error = some "Upload failed")
    ∧ (∀ (secret jobId : String) (o : Oracle) (req : Request) (fs0 : FS) (ui : String),
      (secret = "" ∨ req.authHeader.getD "" = "Bearer " ++ secret) →
      req.input_video_url = some ui → isHttpUrl ui = true →
      truthy req.match_id = true → truthy req.storage_bucket = true →
      truthy req.supabase_url = true → truthy req.supabase_key = true →
      httpOk (o.fetchStatus ui) = true → o.streamResult = .ok () →
      o.execResult (ffmpegCmd001 ("/tmp/input-" ++ jsStr req.match_id)
        ("/tmp/stream-" ++ jsStr req.match_id ++ ".mp4")) = .ok () →
      isHttpUrl (supabaseObjectUrl (jsStr req.supabase_url) (jsStr req.storage_bucket)
        ("processed/" ++ jsStr req.match_id ++ "/stream.mp4")) = true →
      httpOk (o.fetchStatus (supabaseObjectUrl (jsStr req.supabase_url) (jsStr req.storage_bucket)
        ("processed/" ++ jsStr req.match_id ++ "/stream.mp4"))) = false →
      (processPart001 secret jobId o req fs0).resp.status = "error"
      ∧ (processPart001 secret jobId o req fs0).resp.httpStatus = 500
      ∧ (processPart001 secret jobId o req fs0).resp.error =
          some ("Supabase upload failed HTTP "
            ++ toString (o.fetchStatus (supabaseObjectUrl (jsStr req.supabase_url)
                 (jsStr req.storage_bucket) ("processed/" ++ jsStr req.match_id ++ "/stream.mp4")))
            ++ ": "
            ++ takeChars 300 (o.responseText (supabaseObjectUrl (jsStr req.supabase_url)
                 (jsStr req.storage_bucket)
                 ("processed/" ++ jsStr req.match_id ++ "/stream.mp4"))))) := by
  refine ⟨?_, ?_, ?_⟩
  · intro o req fs0 ui uu hvu hui hmid hist hstream hexec huu huok hup
    have h1 : truthy (some ui) = true := by
      simp [truthy, bne_iff_ne]; exact isHttpUrl_ne_empty hui
    have h2 : truthy (some uu) = true := by
      simp [truthy, bne_iff_ne]; exact isHttpUrl_ne_empty huok
    simp only [jsStr] at hexec
    unfold processIndexJs
    simp only [hvu, huu, h1, h2, hmid, Bool.and_self, Bool.and_true, Bool.true_and,
      Bool.not_true, Bool.false_eq_true, if_false, jsStr, fetchStatusOf, hui, huok, if_true,
      hist, hstream, hexec, hup, Bool.not_false, if_true]
    exact ⟨rfl, rfl, rfl⟩
  · intro o req fs0 ui uu em hvu hui hist hstream hpath huu huok hup
    unfold processPart000 p000UploadTail
    rcases hpath with hrem | ⟨hrem, htrans⟩
    · simp only [jsStr] at hrem
      simp only [hvu, huu, jsStr, fetchStatusOf, hui, huok, if_true, hist, hstream, hrem,
        Bool.not_true, Bool.false_eq_true, if_false, hup, Bool.not_false]
      exact ⟨rfl, rfl, rfl⟩
    · simp only [jsStr] at hrem htrans
      simp only [hvu, huu, jsStr, fetchStatusOf, hui, huok, if_true, hist, hstream, hrem, htrans,
        Bool.not_true, Bool.false_eq_true, if_false, hup, Bool.not_false]
      exact ⟨rfl, rfl, rfl⟩
  · intro secret jobId o req fs0 ui hauth hvu hui hmid hbucket hsupa hkey hist hstream hexec hupok hust
    have hcond : (secret != "" && (req.authHeader.getD "") != ("Bearer " ++ secret)) = false := by
      rcases hauth with h1 | h1 <;> simp [h1]
    have h1 : truthy (some ui) = true := by
      simp [truthy, bne_iff_ne]; exact isHttpUrl_ne_empty hui
    simp only [jsStr] at hexec hupok hust
    unfold processPart001
    simp only [hcond, Bool.false_eq_true, if_false, hvu, h1, hmid, hbucket, hsupa, hkey,
      Bool.and_self, Bool.and_true, Bool.true_and, Bool.not_true, jsStr, fetchStatusOf,
      hui, if_true, hist, hstream, hexec, hupok, hust, Bool.not_false]
    exact ⟨rfl, rfl, rfl⟩

/-- Claim C7 witness: the amended theorem applied to the concrete index.js
job m1 whose upload target answers 503: the error message carries the 503. -/
theorem C7_witness :
    (processIndexJs oUploadFail reqPresigned fsEmpty).resp.status = "error"
    ∧ (processIndexJs oUploadFail reqPresigned fsEmpty).resp.httpStatus = 500
    ∧ (processIndexJs oUploadFail reqPresigned fsEmpty).resp.error =
        some ("Upload failed: " ++ toString (oUploadFail.fetchStatus "https://x/put?sig=abc")) :=
  C7_amended_upload_failure.1 oUploadFail reqPresigned fsEmpty
    "https://in.example/v.mp4" "https://x/put?sig=abc"
    rfl (by decide) (by decide) (by decide) rfl rfl rfl (by decide) (by decide)

/-! ## Claim C8 — presigned result URL is the upload URL without its query -/

/-- Claim C8: in both presigned-destination handlers (index.js and
part_000), every successful response's stream_url is exactly the
upload_url truncated at its first question mark. -/
theorem C8_query_stripped :
    (∀ (o : Oracle) (req : Request) (fs0 : FS),
      (processIndexJs o req fs0).resp.status = "success" →
      (processIndexJs o req fs0).resp.stream_url = some (splitQ (jsStr req.upload_url)))
    ∧ (∀ (o : Oracle) (req : Request) (fs0 : FS) (out : JobOut),
        processPart000 o req fs0 = some out → out.resp.status = "success" →
        out.resp.stream_url = some (splitQ (jsStr req.upload_url))) := by
  constructor
  · intro o req fs0 hs
    rcases processIndexJs_shape o req fs0 with h | ⟨m, logs, fs, tr, h⟩ | ⟨logs, fs, tr, hu, h⟩
    · rw [h] at hs; simp at hs
    · rw [h] at hs; simp [indexJsCatch] at hs
    · rw [h]
  · intro o req fs0 out hout hs
    rcases processPart000_shape o req fs0 with ⟨m, logs, fs, tr, h⟩ | h | ⟨logs, fs, tr, hu, h⟩
    · rw [hout] at h; injection h with h; rw [h] at hs; simp [p000Catch] at hs
    · rw [hout] at h; exact absurd h (by simp)
    · rw [hout] at h; injection h with h; rw [h]

/-- Claim C8 witness: the spec scenario: upload_url https://x/put?sig=abc
on a successful job yields stream_url https://x/put. -/
theorem C8_witness :
    (processIndexJs oracleAllOk reqPresigned fsEmpty).resp.stream_url = some "https://x/put" :=
  (C8_query_stripped.1 oracleAllOk reqPresigned fsEmpty (by decide)).trans (by decide)

/-! ## Claim C9 — bearer-auth rejection before any pipeline stage -/

/-- Claim C9: in part_001 (the only handler with the worker-secret check),
whenever a secret is configured and the Authorization header is absent or
differs from Bearer followed by the secret, the handler answers 401 with
status "error" and message "Unauthorized", no download, command, or upload
is attempted, and the filesystem is untouched. -/
theorem C9_auth_rejection (secret jobId : String) (o : Oracle) (req : Request) (fs0 : FS)
    (hs : secret ≠ "") (ha : req.authHeader.getD "" ≠ "Bearer " ++ secret) :
    (processPart001 secret jobId o req fs0).resp.status = "error"
    ∧ (processPart001 secret jobId o req fs0).resp.httpStatus = 401
    ∧ (processPart001 secret jobId o req fs0).resp.error = some "Unauthorized"
    ∧ (processPart001 secret jobId o req fs0).trace = []
    ∧ (processPart001 secret jobId o req fs0).fs = fs0 := by
  have hcond : (secret != "" && (req.authHeader.getD "") != ("Bearer " ++ secret)) = true := by
    simp [bne_iff_ne, hs, ha]
  unfold processPart001
  rw [hcond]
  exact ⟨rfl, rfl, rfl, rfl, rfl⟩

/-- Claim C9 witness: the auth-rejection theorem applied to a concrete
request with no Authorization header while a secret is configured. -/
theorem C9_witness :
    (processPart001 "tops3cret" "j1" oracleAllOk reqStorage fsEmpty).resp.status = "error"
    ∧ (processPart001 "tops3cret" "j1" oracleAllOk reqStorage fsEmpty).resp.httpStatus = 401
    ∧ (processPart001 "tops3cret" "j1" oracleAllOk reqStorage fsEmpty).resp.error = some "Unauthorized"
    ∧ (processPart001 "tops3cret" "j1" oracleAllOk reqStorage fsEmpty).trace = []
    ∧ (processPart001 "tops3cret" "j1" oracleAllOk reqStorage fsEmpty).fs = fsEmpty :=
  C9_auth_rejection "tops3cret" "j1" oracleAllOk reqStorage fsEmpty (by decide) (by decide)

/-! ## Claim C10 — storage-API public URL is computed purely syntactically -/

/-- Claim C10: every successful part_001 job returns as stream_url exactly
the URL described by the claim (supabase_url with trailing slashes
stripped, then /storage/v1/object/public/, the URI-encoded bucket, /, and
the per-segment URI-encoded object path processed/match_id/stream.mp4,
per storagePublicUrlSpec), and the job's externally visible requests are
exactly the input download, the ffmpeg invocation, and the upload POST to
the storage endpoint: no request ever checks that the object is reachable
at the public URL. -/
theorem C10_storage_public_url (secret jobId : String) (o : Oracle) (req : Request) (fs0 : FS)
    (h : (processPart001 secret jobId o req fs0).resp.status = "success") :
    (processPart001 secret jobId o req fs0).resp.stream_url =
      some (storagePublicUrlSpec (jsStr req.supabase_url) (jsStr req.storage_bucket)
        (jsStr req.match_id))
    ∧ (processPart001 secret jobId o req fs0).trace =
      [Event.download (jsStr req.input_video_url),
       Event.exec (ffmpegCmd001 ("/tmp/input-" ++ jsStr req.match_id)
         ("/tmp/stream-" ++ jsStr req.match_id ++ ".mp4")),
       Event.upload (supabaseObjectUrl (jsStr req.supabase_url) (jsStr req.storage_bucket)
         ("processed/" ++ jsStr req.match_id ++ "/stream.mp4"))] := by
  rcases processPart001_shape secret jobId o req fs0 with hs | hs | ⟨m, logs, fs, tr, hs⟩ | ⟨logs, fs, hs⟩
  · rw [hs] at h; simp [p001Catch] at h
  · rw [hs] at h; simp at h
  · rw [hs] at h; simp [p001Catch] at h
  · rw [hs]; exact ⟨rfl, rfl⟩

/-- Claim C10 witness: a concrete successful storage-API job: the
supabase_url's trailing slash is stripped and the public URL is assembled
syntactically. -/
theorem C10_witness :
    (processPart001 "" "j1" oracleAllOk reqStorage fsEmpty).resp.stream_url =
      some "https://proj.supabase.co/storage/v1/object/public/videos/processed/m1/stream.mp4" :=
  ((C10_storage_public_url "" "j1" oracleAllOk reqStorage fsEmpty (by decide)).1).trans (by decide)

end Socca
